import Mathlib

/-!
Verification of the PDF-retrieval core of the `paperscraper` repository
(`paperscraper/pdf/pdf.py`, `paperscraper/pdf/fallbacks.py`,
`paperscraper/pdf/utils.py`).

The Python code is shallowly embedded: every external interaction
(HTTP requests, the S3 strategy, the eLife GitHub index, the process
environment) is supplied by an `Env` record, the observable side effects
(network calls, strategy invocations, file writes) are collected in a
trace, and Python exceptions are modelled with an `Except` layer over a
state monad carrying the trace.  Caught exceptions do not roll back the
trace, matching Python semantics.
-/

namespace Paperscraper

/-- Python exception classes that appear in the embedded code. -/
inductive PyErr where
  | typeError (msg : String)
  | keyError (key : String)
  | valueError (msg : String)
  | nameError (name : String)
  | requestExn (msg : String)
  | attributeError (msg : String)
  | exc (msg : String)
deriving Repr, DecidableEq

/-- `str(e)` of an exception, as used by `error = str(e)` in `save_pdf`. -/
def errString : PyErr → String
  | PyErr.typeError m => m
  | PyErr.keyError k => k
  | PyErr.valueError m => m
  | PyErr.nameError n => "name " ++ n ++ " is not defined"
  | PyErr.requestExn m => m
  | PyErr.attributeError m => m
  | PyErr.exc m => m

/-- Observable side effects of the PDF retrieval code: outgoing network
requests, invocations of registered fallback strategies, and file writes
(recorded by suffix: ".pdf", ".xml" artifacts and ".json" sidecars). -/
inductive Event where
  | netCall (tag : String)
  | stratCall (name : String)
  | fileWrite (ext : String)
deriving Repr, DecidableEq

/-- The trace of observable side effects, in program order. -/
abbrev Trace := List Event

/-- Effect monad of the embedding: Python exceptions over a trace of side
effects.  `ExceptT` over `StateM` keeps trace entries that were logged
before a caught exception, exactly as Python keeps performed side effects. -/
abbrev M := ExceptT PyErr (StateM Trace)

/-- Run an embedded computation from a given starting trace. -/
def runM {α : Type} (x : M α) (t : Trace) : Except PyErr α × Trace :=
  Id.run ((ExceptT.run x).run t)

/-- Append one event to the trace. -/
def logEvent (e : Event) : M Unit :=
  modify (fun t => t ++ [e])

/-- Lift an environment-supplied outcome (`Except`) into the effect monad:
`.error` raises the corresponding Python exception. -/
def liftE {α : Type} (x : Except PyErr α) : M α :=
  match x with
  | Except.ok a => pure a
  | Except.error e => throw e

/-! ## Python string primitives (over `List Char`) -/

/-- Python `sub in s` on character lists: some position of `hay` starts
with `needle`.  Mirrors CPython semantics, including `"" in s == True`. -/
def containsSub (needle : List Char) : List Char → Bool
  | [] => needle.isEmpty
  | c :: t => needle.isPrefixOf (c :: t) || containsSub needle t

/-- Python `sub in s` on strings. -/
def pyIn (needle s : String) : Bool :=
  containsSub needle.data s.data

/-- Python `s.lower()` (ASCII case folding suffices for the embedded code). -/
def pyLower (s : String) : String :=
  String.mk (s.data.map Char.toLower)

/-- Python `s.startswith(p)` / `content[:4] == b"%PDF"` style checks. -/
def pyStartsWith (s p : String) : Bool :=
  p.data.isPrefixOf s.data

/-- Python `s.endswith(p)`. -/
def pyEndsWith (s p : String) : Bool :=
  p.data.isSuffixOf s.data

/-- Python `s.replace(c, r)` for a single-character pattern, as used by
`paper[key_to_save].replace("/", "_")`. -/
def replaceChar (pat rep : Char) : List Char → List Char
  | [] => []
  | c :: t => (if c == pat then rep else c) :: replaceChar pat rep t

/-- `value.replace("/", "_")`, the filename derivation of the batch driver. -/
def replaceSlash (s : String) : String :=
  String.mk (replaceChar '/' '_' s.data)

/-- The suffix of `hay` after the first occurrence of `needle`
(`s.split(sep)[1:]` is nonempty exactly when this is `some`).  Mirrors
Python `str.split` for a nonempty separator. -/
def afterFirst (needle : List Char) : List Char → Option (List Char)
  | [] => if needle.isEmpty then some [] else none
  | c :: t =>
    if needle.isPrefixOf (c :: t) then some ((c :: t).drop needle.length)
    else afterFirst needle t

/-- The segment of `hay` before the next occurrence of `needle`; together
with `afterFirst` this yields `s.split(sep)[1]`. -/
def beforeFirst (needle : List Char) : List Char → List Char
  | [] => []
  | c :: t =>
    if needle.isPrefixOf (c :: t) then []
    else c :: beforeFirst needle t

/-- `os.path.join(dir, name)` for the relative paths used by the driver. -/
def pathJoin (dir name : String) : String :=
  dir ++ "/" ++ name

/-! ## Data model -/

/-- `paper_metadata` / one JSONL record: a dict from string keys to
optional string values (`none` models JSON `null`, i.e. Python `None`). -/
abbrev PaperMeta := List (String × Option String)

/-- Python `d[k]` presence/value: `none` = key absent, `some none` = key
present with value `None`, `some (some v)` = key present with value `v`. -/
def lookupKey (paper : PaperMeta) (k : String) : Option (Option String) :=
  paper.lookup k

/-- The API-key bundle: a dict from key name to optional value, as built by
`load_api_keys`. -/
abbrev ApiKeys := List (String × Option String)

/-- Python `api_keys.get(k)`: `None` both for a missing key and for a key
stored with value `None`. -/
def apiGet (ks : ApiKeys) (k : String) : Option String :=
  match ks.lookup k with
  | some v => v
  | none => none

/-- Python `k in api_keys`: key membership only, ignoring the value. -/
def apiHasKey (ks : ApiKeys) (k : String) : Bool :=
  (ks.lookup k).isSome

/-- Python truthiness of the `api_keys` dict: non-empty. -/
def pyTruthy (ks : ApiKeys) : Bool :=
  !ks.isEmpty

/-- The `api_keys` argument of `save_pdf`: either an already-loaded dict, or
`None` / a file path, which makes `save_pdf` call `load_api_keys`. -/
inductive ApiKeysArg where
  | dict (ks : ApiKeys)
  | path (p : Option String)

/-- An HTTP response as far as the embedded code observes it: the final URL
after redirects, the body, whether `raise_for_status()` passes, and the
exception text when it does not. -/
structure Resp where
  url : String := ""
  content : String := ""
  ok : Bool := true
  errMsg : String := ""
deriving Repr, DecidableEq

/-- The parsed landing page (`BeautifulSoup`), abstracted to the meta tag the
orchestrator's control flow reads.  The `citation_*` metadata tags only feed
the JSON sidecar, which is modelled as a single `.json` write event. -/
structure Soup where
  citation_pdf_url : Option String := none
deriving Repr, DecidableEq

/-- A landing-page fetch outcome: parsed soup plus `raise_for_status` info. -/
structure LandingResp where
  soup : Soup := {}
  ok : Bool := true
  errMsg : String := ""
deriving Repr, DecidableEq

/-- A ChemRxiv Open-Engage item, abstracted to the PDF asset URL that
`_chemrxiv_pdf_url` extracts from the payload. -/
structure ChemItem where
  pdfUrl : Option String := none
deriving Repr, DecidableEq

/-- Outcome of the ChemRxiv API request inside `_get_chemrxiv_item`: the
item parsed from the JSON payload (if any) plus `raise_for_status` info. -/
structure ChemResp where
  item : Option ChemItem := none
  ok : Bool := true
  errMsg : String := ""
deriving Repr, DecidableEq

/-- A proleptic-Gregorian calendar date, as `datetime.date`. -/
structure PyDate where
  year : Nat
  month : Nat
  day : Nat
deriving Repr, DecidableEq

/-- Outcome of the bioRxiv details API request inside `month_folder`:
`date` is `resp.json()["collection"][0]["date"]` parsed by
`datetime.date.fromisoformat`; `none` models a missing or malformed
payload (the resulting `KeyError`/`IndexError`/`ValueError` is folded into
one exception, which no claim distinguishes). -/
structure BiorxivDetails where
  date : Option PyDate := none
  ok : Bool := true
  errMsg : String := ""
deriving Repr, DecidableEq

/-- The external world as observed by the embedded code.  Each field is the
outcome of one interaction point (one `requests.*` call site, one strategy
invocation, the process environment, the cached eLife index).  Strategy
outcomes (`s3Strategy`, `biocPmcA`, ...) are the boolean results of the
corresponding `FALLBACKS` entries; `Except.error` models the strategy
propagating an exception.  Call sites that can execute twice in one run
get two fields (`...A` for the first execution, `...B` for the second). -/
structure Env where
  osEnv : String → Option String := fun _ => none
  resolveHead : Except PyErr Resp := Except.ok {}
  resolveGet : Except PyErr Resp := Except.ok {}
  arxivMatch : Option String := none
  arxivPdfGet : Except PyErr Resp := Except.ok {}
  arxivLanding : Except PyErr LandingResp := Except.ok {}
  chemrxivApi : Except PyErr ChemResp := Except.ok {}
  biorxivManualGet : Except PyErr Unit := Except.ok ()
  streamGet : Except PyErr Resp := Except.ok {}
  jsonWriteOk : Bool := true
  landingGet : Except PyErr LandingResp := Except.ok {}
  s3Strategy : Except PyErr Bool := Except.ok false
  biocPmcA : Except PyErr Bool := Except.ok false
  biocPmcB : Except PyErr Bool := Except.ok false
  elifeA : Except PyErr Bool := Except.ok false
  elifeB : Except PyErr Bool := Except.ok false
  wileyA : Except PyErr Bool := Except.ok false
  wileyB : Except PyErr Bool := Except.ok false
  elsevierA : Except PyErr Bool := Except.ok false
  elsevierB : Except PyErr Bool := Except.ok false
  citationPdfGet : Except PyErr Resp := Except.ok {}
  elifeIndex : String → Option (List (Nat × String)) := fun _ => none
  elifeDownload : Except PyErr Resp := Except.ok {}
  biorxivDetails : Except PyErr BiorxivDetails := Except.ok {}

/-! ## paperscraper/pdf/utils.py -/

/-- The names bound at module level of `paperscraper/pdf/utils.py`: its
imports (`os`, `typing.Dict`, `typing.Optional`, `pathlib.Path`,
`dotenv.find_dotenv`, `dotenv.load_dotenv`) and its two function
definitions.  `requests` is absent: the module never imports it. -/
def utilsModuleGlobals : List String :=
  ["os", "Dict", "Optional", "Path", "find_dotenv", "load_dotenv",
   "load_api_keys", "download_pdf_to_path"]

/-- `load_api_keys` (utils.py lines 8-34).  `load_dotenv` merges a `.env`
file into the process environment; `osEnv` is the environment as read by
`os.getenv` after that merge, so the `filepath` argument only influences
`osEnv` and is otherwise unused. -/
def load_api_keys (osEnv : String → Option String) (filepath : Option String) :
    ApiKeys :=
  let _ := filepath
  [("WILEY_TDM_API_TOKEN", osEnv "WILEY_TDM_API_TOKEN"),
   ("ELSEVIER_TDM_API_KEY", osEnv "ELSEVIER_TDM_API_KEY"),
   ("AWS_ACCESS_KEY_ID", osEnv "AWS_ACCESS_KEY_ID"),
   ("AWS_SECRET_ACCESS_KEY", osEnv "AWS_SECRET_ACCESS_KEY")]

/-- `download_pdf_to_path` (utils.py lines 37-53).  The body's first
expression is `requests.get(...)`; evaluating the name `requests` in a
module that never binds it raises `NameError` before any request is made.
The remainder of the function (stream, validate `%PDF`, write) is embedded
under the name-resolution check and is unreachable for this module. -/
def download_pdf_to_path (env : Env) (pdfUrl : String) : M Bool := do
  let _ := pdfUrl
  if utilsModuleGlobals.contains "requests" then
    logEvent (Event.netCall "GET pdf (stream)")
    let r ← liftE env.streamGet
    if !r.ok then throw (PyErr.requestExn r.errMsg)
    if !(pyStartsWith r.content "%PDF") then
      return false
    logEvent (Event.fileWrite ".pdf")
    return true
  else
    throw (PyErr.nameError "requests")

/-! ## paperscraper/pdf/fallbacks.py -/

/-- The Gregorian leap-year rule used by `calendar.monthrange`. -/
def isLeapYear (y : Nat) : Bool :=
  (y % 4 == 0 && y % 100 != 0) || y % 400 == 0

/-- `calendar.monthrange(year, month)[1]`: the number of days in a month. -/
def daysInMonth (y m : Nat) : Nat :=
  if m == 2 then (if isLeapYear y then 29 else 28)
  else if m == 4 || m == 6 || m == 9 || m == 11 then 30
  else 31

/-- The English month name, as produced by `date.strftime("%B")`. -/
def monthName : Nat → String
  | 1 => "January"
  | 2 => "February"
  | 3 => "March"
  | 4 => "April"
  | 5 => "May"
  | 6 => "June"
  | 7 => "July"
  | 8 => "August"
  | 9 => "September"
  | 10 => "October"
  | 11 => "November"
  | 12 => "December"
  | _ => ""

/-- `date + datetime.timedelta(days=1)` on a valid date. -/
def nextDay (d : PyDate) : PyDate :=
  if d.day < daysInMonth d.year d.month then ⟨d.year, d.month, d.day + 1⟩
  else if d.month < 12 then ⟨d.year, d.month + 1, 1⟩
  else ⟨d.year + 1, 1, 1⟩

/-- `date.strftime("%B_%Y")`, e.g. `October_2019` (years of the bioRxiv
archive all have four digits, so `%Y` is plain decimal). -/
def strftimeBY (d : PyDate) : String :=
  monthName d.month ++ "_" ++ toString d.year

/-- The pure core of `month_folder` (fallbacks.py lines 319-323): the
posting date is mapped to the S3 folder name, rolling over to the next
month when the date is the last calendar day of its month. -/
def monthFolderOfDate (d : PyDate) : String :=
  if d.day == daysInMonth d.year d.month then strftimeBY (nextDay d)
  else strftimeBY d

/-- `month_folder` (fallbacks.py lines 301-323): query the bioRxiv details
API for the posting date (uncaught exceptions propagate to the caller,
i.e. to `fallback_s3`), then apply the rollover rule. -/
def month_folder (env : Env) (doi : String) : M String := do
  logEvent (Event.netCall ("GET api.biorxiv.org details " ++ doi))
  let r ← liftE env.biorxivDetails
  if !r.ok then throw (PyErr.requestExn r.errMsg)
  match r.date with
  | none => throw (PyErr.keyError "collection")
  | some d => pure (monthFolderOfDate d)

/-- Python `max(candidate_files, key=lambda x: x[0])`: `none` on an empty
list (where Python raises `ValueError`), otherwise the first element with
the largest first component. -/
def maxByFst : List (Nat × String) → Option (Nat × String)
  | [] => none
  | x :: xs => some (xs.foldl (fun a b => if b.1 > a.1 then b else a) x)

/-- The separator of `doi.split("eLife.")` in `fallback_elife_xml`. -/
def eLifeSep : String := "eLife."

/-- `fallback_elife_xml` (fallbacks.py lines 216-256).  `parts =
doi.split("eLife.")` has fewer than two parts exactly when the
case-sensitive separator does not occur, in which case the function logs
and returns `False`; otherwise `parts[1].strip()` is the article number,
looked up in the cached GitHub index (`env.elifeIndex`, built once per
process by `get_elife_xml_index`). -/
def fallback_elife_xml (env : Env) (doi : String) : M Bool :=
  match afterFirst eLifeSep.data doi.data with
  | none => pure false
  | some rest => do
    let articleNum := (String.mk (beforeFirst eLifeSep.data rest)).trim
    match env.elifeIndex articleNum with
    | none => pure false
    | some candidateFiles =>
      match maxByFst candidateFiles with
      | none => throw (PyErr.valueError "max() arg is an empty sequence")
      | some latest =>
        let _ := latest
        let latestXml ← (try
            logEvent (Event.netCall "GET raw.githubusercontent elife xml")
            let r ← liftE env.elifeDownload
            if !r.ok then throw (PyErr.requestExn r.errMsg)
            pure (some r.content)
          catch _ =>
            pure (none : Option String))
        match latestXml with
        | none => pure false
        | some _ => do
          logEvent (Event.fileWrite ".xml")
          pure true

/-! ## paperscraper/pdf/pdf.py -/

/-- `str(x)` on an optional string, for the `f"https://doi.org/{doi}"`
interpolation (`None` renders as "None"). -/
def pyStr : Option String → String
  | some s => s
  | none => "None"

/-- `_get_chemrxiv_item` (pdf.py lines 32-53): fetch the Open-Engage item
for a DOI; any exception is logged and turned into `None`.  The JSON
unwrapping of lines 51-53 is folded into `ChemResp.item`. -/
def get_chemrxiv_item (env : Env) : M (Option ChemItem) := do
  try
    logEvent (Event.netCall "GET chemrxiv open-engage api")
    let r ← liftE env.chemrxivApi
    if !r.ok then throw (PyErr.requestExn r.errMsg)
    pure r.item
  catch _ =>
    pure none

/-- `_write_metadata` (pdf.py lines 105-113): write the JSON sidecar,
catching and logging write failures; returns whether the write succeeded.
The metadata content itself is not observable, only the write event. -/
def write_metadata (env : Env) : M Bool := do
  if env.jsonWriteOk then
    logEvent (Event.fileWrite ".json")
    pure true
  else
    pure false

/-- The ChemRxiv download attempt of `save_pdf` (pdf.py lines 216-226):
`download_pdf_to_path` inside `try`/`except`; `true` means `save_pdf`
returns immediately. -/
def chemrxivDownloadAttempt (env : Env) (pdfUrl : String) : M Bool := do
  try
    let ok ← download_pdf_to_path env pdfUrl
    if ok then
      return true
    pure false
  catch _ =>
    pure false

/-- The direct bioRxiv download attempt of `save_pdf` (pdf.py lines
235-246): `download_pdf_to_path` on `{doi}.full.pdf` inside
`try`/`except`; returns whether a PDF was obtained. -/
def biorxivDirectAttempt (env : Env) (doi : String) : M Bool := do
  try
    download_pdf_to_path env
      ("https://www.biorxiv.org/content/" ++ doi ++ ".full.pdf")
  catch _ =>
    pure false

/-- `save_pdf` (pdf.py lines 116-384), the PDF orchestrator.

The `isinstance` guards on `paper_metadata` and `filepath` (lines 135-136,
139-140) are enforced by the types of the embedding; the remaining
validation (`doi` key, parent directory) is embedded explicitly.
`parentExists` is `Path(filepath).parent.exists()`.  Strategy outcomes come
from `env`; `download_pdf_to_path` is called directly, as in the source. -/
def save_pdf (env : Env) (paper : PaperMeta) (parentExists : Bool)
    (saveMetadata : Bool) (apiKeysArg : ApiKeysArg) : M Bool := do
  -- lines 137-138: `"doi" not in paper_metadata.keys()`
  let doiVal ← match lookupKey paper "doi" with
    | none => throw (PyErr.keyError "doi")
    | some v => pure v
  -- lines 142-145
  if !parentExists then
    throw (PyErr.valueError "The folder seems to not exist.")
  -- lines 147-149
  let apiKeys : ApiKeys := match apiKeysArg with
    | ApiKeysArg.dict ks => ks
    | ApiKeysArg.path p => load_api_keys env.osEnv p
  -- lines 150-154
  let url := "https://doi.org/" ++ pyStr doiVal
  let _ := url
  let mut success := false
  let mut metadataWritten := false
  -- lines 156-172: resolve via HEAD, falling back to GET, falling back to
  -- leaving `resolved_url = url`
  let mut resolvedUrl := url
  try
    logEvent (Event.netCall "HEAD https://doi.org")
    let r ← liftE env.resolveHead
    if r.url ≠ "" then
      resolvedUrl := r.url
  catch _ =>
    try
      logEvent (Event.netCall "GET https://doi.org")
      let r ← liftE env.resolveGet
      if r.url ≠ "" then
        resolvedUrl := r.url
    catch _ =>
      pure ()
  -- line 175 `doi.lower()` raises AttributeError when the doi value is None
  let doi ← match doiVal with
    | some s => pure s
    | none => throw (PyErr.attributeError "NoneType has no attribute lower")
  let mut soup : Option Soup := none
  -- lines 174-206: direct arXiv fetch; `env.arxivMatch` is the outcome of
  -- the arXiv-id regular-expression search (line 178-181)
  if pyIn "arxiv" (pyLower doi) then
    soup := none
    try
      match env.arxivMatch with
      | none => throw (PyErr.attributeError "NoneType has no attribute group")
      | some arxivId =>
        let _ := arxivId
        logEvent (Event.netCall "GET arxiv.org pdf")
        let r ← liftE env.arxivPdfGet
        if !r.ok then throw (PyErr.requestExn r.errMsg)
        if pyStartsWith r.content "%PDF" then
          logEvent (Event.fileWrite ".pdf")
          success := true
          if saveMetadata then
            try
              logEvent (Event.netCall "GET arxiv landing page")
              let r2 ← liftE env.arxivLanding
              if !r2.ok then throw (PyErr.requestExn r2.errMsg)
              soup := some r2.soup
            catch _ =>
              soup := none
          else
            return true
    catch _ =>
      pure ()
  -- lines 208-228: ChemRxiv Open-Engage
  if pyIn "chemrxiv" (pyLower doi) then
    let item ← get_chemrxiv_item env
    match item with
    | some it =>
      if saveMetadata then
        metadataWritten := (← write_metadata env)
      match it.pdfUrl with
      | some pdfUrl =>
        if (← chemrxivDownloadAttempt env pdfUrl) then
          return true
      | none => pure ()
    | none => pure ()
  -- lines 230-246: direct bioRxiv PDF endpoint.  Line 233 performs a bare
  -- `requests.get(url)` whose result is unused and whose exceptions are
  -- uncaught.
  let isBiorxiv := pyIn "biorxiv" (pyLower resolvedUrl)
  if isBiorxiv then
    logEvent (Event.netCall "GET https://doi.org (manual)")
    let _ ← liftE env.biorxivManualGet
    let dl ← biorxivDirectAttempt env doi
    if dl then
      if !saveMetadata then
        return true
      success := true
  -- lines 248-256: fetch and parse the landing page; `soup` is assigned
  -- before `raise_for_status()`, and reset to `None` by the handler
  let mut error := ""
  try
    logEvent (Event.netCall "GET https://doi.org (landing)")
    let r ← liftE env.landingGet
    soup := some r.soup
    if !r.ok then throw (PyErr.requestExn r.errMsg)
    error := ""
  catch e =>
    error := errString e
    soup := none
  -- lines 258-293: metadata sidecar (tag extraction abstracted to the write)
  if soup.isSome && saveMetadata && !metadataWritten then
    let _ ← write_metadata env
  -- lines 295-296
  if success then
    return true
  -- lines 298-312: requester-pays S3 bucket; note the value (not
  -- membership) test on the AWS credentials, and the absence of any
  -- `try`/`except` around the strategy call
  if isBiorxiv then
    if (apiGet apiKeys "AWS_ACCESS_KEY_ID").isNone
        || (apiGet apiKeys "AWS_SECRET_ACCESS_KEY").isNone then
      pure ()
    else
      logEvent (Event.stratCall "s3")
      success ← liftE env.s3Strategy
      if success then
        return true
  -- line 315
  logEvent (Event.stratCall "bioc_pmc")
  success ← liftE env.biocPmcA
  -- lines 318-327: publisher-specific fallbacks keyed on the landing-page
  -- error text; the Wiley guard tests key membership, not the token value
  if !success then
    if pyIn "elife" (pyLower error) then
      logEvent (Event.stratCall "elife")
      success ← liftE env.elifeA
    else if pyIn "wiley" (pyLower error) && pyTruthy apiKeys
        && apiHasKey apiKeys "WILEY_TDM_API_TOKEN" then
      logEvent (Event.stratCall "wiley")
      success ← liftE env.wileyA
  if success then
    return true
  -- lines 331-384: citation_pdf_url meta tag, else publisher fallbacks.
  -- A tag with empty content is falsy in Python and lands in the `else`
  -- branch, so it is modelled as `none`.
  let metaPdfUrl : Option String := match soup with
    | some sp => sp.citation_pdf_url
    | none => none
  match metaPdfUrl with
  | some pdfUrl =>
    let _ := pdfUrl
    try
      logEvent (Event.netCall "GET citation_pdf_url")
      let r ← liftE env.citationPdfGet
      if !r.ok then throw (PyErr.requestExn r.errMsg)
      if !(pyStartsWith r.content "%PDF") then
        logEvent (Event.stratCall "bioc_pmc")
        success ← liftE env.biocPmcB
        if !success then
          if pyIn "elife" (pyLower doi) then
            logEvent (Event.stratCall "elife")
            success ← liftE env.elifeB
          else if pyTruthy apiKeys && apiHasKey apiKeys "WILEY_TDM_API_TOKEN" then
            logEvent (Event.stratCall "wiley")
            success ← liftE env.wileyB
          else if pyTruthy apiKeys && apiHasKey apiKeys "ELSEVIER_TDM_API_KEY" then
            logEvent (Event.stratCall "elsevier")
            success ← liftE env.elsevierB
        if success then
          return true
      else
        -- lines 361-363: the PDF is written, but `success` is not set here
        logEvent (Event.fileWrite ".pdf")
    catch _ =>
      pure ()
  | none =>
    if pyIn "elife" (pyLower doi) then
      logEvent (Event.stratCall "elife")
      success ← liftE env.elifeB
    else if pyTruthy apiKeys && apiHasKey apiKeys "ELSEVIER_TDM_API_KEY" then
      logEvent (Event.stratCall "elsevier")
      success ← liftE env.elsevierB
    else
      pure ()
  -- line 384
  return success

/-- The per-paper loop of `save_pdf_from_dump` (pdf.py lines 425-442).
`fs` is the file-existence predicate of the output directory; the result
collects, in order, the papers for which `save_pdf` is invoked (each
invocation performs network calls).  The skip-log of line 430 evaluates
`paper['title']`, so a record with no usable doi and no title raises
`KeyError`; a `None` value under `key_to_save` makes `.replace` raise
`AttributeError`. -/
def dumpLoop (pdfPath keyToSave : String) (fs : String → Bool) :
    List PaperMeta → Except PyErr (List PaperMeta)
  | [] => Except.ok []
  | paper :: rest =>
    match lookupKey paper "doi" with
    | none =>
      match lookupKey paper "title" with
      | none => Except.error (PyErr.keyError "title")
      | some _ => dumpLoop pdfPath keyToSave fs rest
    | some none =>
      match lookupKey paper "title" with
      | none => Except.error (PyErr.keyError "title")
      | some _ => dumpLoop pdfPath keyToSave fs rest
    | some (some _) =>
      match lookupKey paper keyToSave with
      | none => Except.error (PyErr.keyError keyToSave)
      | some none =>
        Except.error (PyErr.attributeError "NoneType has no attribute replace")
      | some (some v) =>
        if fs (pathJoin pdfPath (replaceSlash v ++ ".pdf")) then
          dumpLoop pdfPath keyToSave fs rest
        else if fs (pathJoin pdfPath (replaceSlash v ++ ".xml")) then
          dumpLoop pdfPath keyToSave fs rest
        else
          match dumpLoop pdfPath keyToSave fs rest with
          | Except.error e => Except.error e
          | Except.ok invoked => Except.ok (paper :: invoked)

/-- `save_pdf_from_dump` (pdf.py lines 387-442), the batch driver.
`papers` stands for `load_jsonl(dump_path)`; the `isinstance` guards are
enforced by the types.  The api-key loading of lines 422-423 builds the
dict handed to each `save_pdf` call and contributes no observable event,
so it is not threaded through the result. -/
def save_pdf_from_dump (dumpPath : String) (papers : List PaperMeta)
    (pdfPath keyToSave : String) (fs : String → Bool) :
    Except PyErr (List PaperMeta) :=
  if !(pyEndsWith dumpPath ".jsonl") then
    Except.error (PyErr.valueError "Please provide a dump_path with .jsonl extension.")
  else if !(["doi", "title", "date"].contains keyToSave) then
    Except.error (PyErr.valueError "key_to_save must be one of 'doi' or 'title'.")
  else
    dumpLoop pdfPath keyToSave fs papers

/-! ## Concrete scenarios

Concrete environments used to evaluate the embedded code at specific
inputs (counterexamples and failing inputs).  All unlisted interactions
keep the defaults: strategies return `false`, requests succeed with empty
payloads, no credentials are configured. -/

/-- A paper whose landing page advertises a valid PDF via the
`citation_pdf_url` meta tag; every fallback strategy fails. -/
def envC1 : Env :=
  { resolveHead := Except.ok { url := "https://pub.example.org/art" },
    landingGet := Except.ok
      { soup := { citation_pdf_url := some "https://pub.example.org/art.pdf" } },
    citationPdfGet := Except.ok { content := "%PDF-1.7 fake body" } }

/-- The paper record for the `envC1` scenario. -/
def paperC1 : PaperMeta := [("doi", some "10.1234/test")]

/-- A Wiley paper whose landing-page fetch fails with an error text naming
the Wiley host; no credential of any kind is configured (`osEnv` is
empty, so `load_api_keys` maps every key name to `none`). -/
def envC2 : Env :=
  { resolveHead := Except.ok
      { url := "https://onlinelibrary.wiley.com/doi/10.1002/jlac.123" },
    landingGet := Except.error (PyErr.requestExn
      "403 Client Error: Forbidden for url: https://onlinelibrary.wiley.com/doi/10.1002/jlac.123") }

/-- The paper record for the `envC2` scenario. -/
def paperC2 : PaperMeta := [("doi", some "10.1002/jlac.123")]

/-- A bioRxiv paper with AWS credentials configured whose S3 strategy
propagates the exception `e` (e.g. the bioRxiv date API raising inside
`month_folder`). -/
def envS3err (e : PyErr) : Env :=
  { resolveHead := Except.ok
      { url := "https://www.biorxiv.org/content/10.1101/2020.01.01.123456v1" },
    s3Strategy := Except.error e }

/-- The paper record for the `envS3err` scenario. -/
def paperC3 : PaperMeta := [("doi", some "10.1101/2020.01.01.123456")]

/-- An api-key bundle holding both AWS credentials. -/
def awsKeys : ApiKeys :=
  [("AWS_ACCESS_KEY_ID", some "AKIAEXAMPLE"),
   ("AWS_SECRET_ACCESS_KEY", some "secretexample")]

/-- An eLife paper whose DOI spells `elife.` in lower case and whose
landing page has no `citation_pdf_url` meta tag. -/
def envC10 : Env :=
  { resolveHead := Except.ok { url := "https://elifesciences.org/articles/64453" },
    landingGet := Except.ok { soup := { citation_pdf_url := none } } }

/-- The paper record for the `envC10` scenario. -/
def paperC10 : PaperMeta := [("doi", some "10.7554/elife.64453")]

/-- A dump record with a usable doi and a title. -/
def paperFresh : PaperMeta := [("doi", some "10.1101/x"), ("title", some "T")]

/-- A filesystem on which exactly the `.pdf` artifact of `paperFresh`
already exists. -/
def fsHasPdf : String → Bool := fun s => s == "pdfs/10.1101_x.pdf"


/-! ## Helper lemmas -/

theorem containsSub_mono_needle (n1 n2 : List Char) (hpre : n1 <+: n2) :
    ∀ h : List Char, containsSub n2 h = true → containsSub n1 h = true := by
  intro h
  induction h with
  | nil =>
    intro hc
    simp [containsSub] at hc ⊢
    subst hc
    simpa using hpre
  | cons c t ih =>
    intro hc
    simp [containsSub] at hc ⊢
    rcases hc with h1 | h1
    · exact Or.inl (hpre.trans h1)
    · exact Or.inr (ih h1)

theorem containsSub_map (f : Char → Char) (n : List Char) :
    ∀ h : List Char, containsSub n h = true →
      containsSub (n.map f) (h.map f) = true := by
  intro h
  induction h with
  | nil =>
    intro hc
    simp [containsSub] at hc ⊢
    simp [hc]
  | cons c t ih =>
    intro hc
    simp [containsSub] at hc ⊢
    rcases hc with h1 | h1
    · exact Or.inl (h1.map f)
    · exact Or.inr (ih h1)

theorem afterFirst_eq_none (n : List Char) :
    ∀ h : List Char, containsSub n h = false → afterFirst n h = none := by
  intro h
  induction h with
  | nil =>
    intro hc
    simp [containsSub] at hc
    simp [afterFirst, hc]
  | cons c t ih =>
    intro hc
    simp [containsSub] at hc
    simp [afterFirst, hc.1]
    exact ih hc.2

/-! ## Claims -/

/-- Claim C8: `download_pdf_to_path` raises `NameError` on every input,
because `requests` is never imported in its defining module; consequently
the ChemRxiv Open-Engage and direct bioRxiv strategies of `save_pdf`,
which call it inside `try`/`except`, never produce an artifact and always
fall through as failures. -/
theorem download_pdf_to_path_always_name_error (env : Env)
    (pdfUrl doi : String) (t : Trace) :
    runM (download_pdf_to_path env pdfUrl) t =
      (Except.error (PyErr.nameError "requests"), t) ∧
    runM (chemrxivDownloadAttempt env pdfUrl) t = (Except.ok false, t) ∧
    runM (biorxivDirectAttempt env doi) t = (Except.ok false, t) :=
  ⟨rfl, rfl, rfl⟩

/-- Claim C9: `load_api_keys` always returns a dict whose key set is
exactly the four credential names, each mapped to the (possibly absent)
environment value, so key-membership tests succeed for all four names
regardless of which credentials are configured. -/
theorem load_api_keys_fixed_key_set (osEnv : String → Option String)
    (fp : Option String) :
    (load_api_keys osEnv fp).map Prod.fst =
      ["WILEY_TDM_API_TOKEN", "ELSEVIER_TDM_API_KEY", "AWS_ACCESS_KEY_ID",
       "AWS_SECRET_ACCESS_KEY"] ∧
    apiHasKey (load_api_keys osEnv fp) "WILEY_TDM_API_TOKEN" = true ∧
    apiHasKey (load_api_keys osEnv fp) "ELSEVIER_TDM_API_KEY" = true ∧
    apiHasKey (load_api_keys osEnv fp) "AWS_ACCESS_KEY_ID" = true ∧
    apiHasKey (load_api_keys osEnv fp) "AWS_SECRET_ACCESS_KEY" = true ∧
    apiGet (load_api_keys osEnv fp) "WILEY_TDM_API_TOKEN" = osEnv "WILEY_TDM_API_TOKEN" ∧
    apiGet (load_api_keys osEnv fp) "ELSEVIER_TDM_API_KEY" = osEnv "ELSEVIER_TDM_API_KEY" ∧
    apiGet (load_api_keys osEnv fp) "AWS_ACCESS_KEY_ID" = osEnv "AWS_ACCESS_KEY_ID" ∧
    apiGet (load_api_keys osEnv fp) "AWS_SECRET_ACCESS_KEY" = osEnv "AWS_SECRET_ACCESS_KEY" :=
  ⟨rfl, rfl, rfl, rfl, rfl, rfl, rfl, rfl, rfl⟩

/-- Claim C7 (failing input): a dump record lacking both `doi` and `title`
makes `save_pdf_from_dump` raise `KeyError('title')` from the skip-log
line, instead of logging the skip and continuing. -/
theorem save_pdf_from_dump_keyerror_without_title :
    save_pdf_from_dump "dump.jsonl" [([] : PaperMeta)] "pdfs" "doi"
      (fun _ => false) = Except.error (PyErr.keyError "title") :=
  rfl

/-- Claim C1 (failing input): with a valid PDF served from the landing
page's `citation_pdf_url` meta tag and all strategies failing, `save_pdf`
writes the `.pdf` artifact yet returns `False`. -/
theorem save_pdf_writes_pdf_but_returns_false :
    (runM (save_pdf envC1 paperC1 true false (ApiKeysArg.dict [])) []).1 =
      Except.ok false ∧
    Event.fileWrite ".pdf" ∈
      (runM (save_pdf envC1 paperC1 true false (ApiKeysArg.dict [])) []).2 :=
  ⟨rfl, by decide⟩

/-- Claim C2 (failing input): with no Wiley token configured (the loaded
bundle maps `WILEY_TDM_API_TOKEN` to `None`) and a landing-page error text
naming Wiley, `save_pdf` still invokes the Wiley TDM fallback, because the
guard tests key membership rather than the token value. -/
theorem save_pdf_invokes_wiley_without_token :
    apiGet (load_api_keys envC2.osEnv none) "WILEY_TDM_API_TOKEN" = none ∧
    Event.stratCall "wiley" ∈
      (runM (save_pdf envC2 paperC2 true false (ApiKeysArg.path none)) []).2 :=
  ⟨rfl, by decide⟩

/-- Claim C3 (counterexample): an exception propagated out of the S3
fallback strategy is not caught by `save_pdf`; it aborts the remaining
chain and reaches the caller. -/
theorem save_pdf_s3_exception_reaches_caller :
    (runM (save_pdf (envS3err (PyErr.exc "ConnectionError: api.biorxiv.org"))
        paperC3 true false (ApiKeysArg.dict awsKeys)) []).1 =
      Except.error (PyErr.exc "ConnectionError: api.biorxiv.org") :=
  rfl

/-- Claim C3 (amended): whatever exception a fallback strategy propagates,
`save_pdf` propagates it to the caller unchanged instead of catching it
and continuing with the remaining fallbacks. -/
theorem save_pdf_propagates_strategy_exception (e : PyErr) (t : Trace) :
    (runM (save_pdf (envS3err e) paperC3 true false
        (ApiKeysArg.dict awsKeys)) t).1 = Except.error e :=
  rfl

/-- Claim C10: `fallback_elife_xml` returns `False` and performs no side
effect for every DOI lacking the case-sensitive substring "eLife.", while
the orchestrator selects the eLife branch by the case-insensitive test
`"elife" in doi.lower()`; a lowercase `elife.` DOI therefore always takes
the eLife branch (shown on a concrete run) and always fails to parse. -/
theorem fallback_elife_case_sensitivity (doi : String) (env : Env) (t : Trace)
    (h : pyIn "eLife." doi = false) :
    runM (fallback_elife_xml env doi) t = (Except.ok false, t) ∧
    (pyIn "elife." doi = true → pyIn "elife" (pyLower doi) = true) ∧
    Event.stratCall "elife" ∈
      (runM (save_pdf envC10 paperC10 true false (ApiKeysArg.dict [])) []).2 := by
  refine ⟨?_, ?_, by decide⟩
  · have ha : afterFirst eLifeSep.data doi.data = none :=
      afterFirst_eq_none eLifeSep.data doi.data h
    unfold fallback_elife_xml
    rw [ha]
    rfl
  · intro h2
    have h3 : containsSub "elife".data doi.data = true :=
      containsSub_mono_needle "elife".data "elife.".data ⟨['.'], rfl⟩ doi.data h2
    have h4 := containsSub_map Char.toLower "elife".data doi.data h3
    have h5 : "elife".data.map Char.toLower = "elife".data := by decide
    rw [h5] at h4
    exact h4

/-- Witness for claim C10 at a concrete lowercase eLife DOI. -/
theorem fallback_elife_case_sensitivity_witness :
    runM (fallback_elife_xml {} "10.7554/elife.64453") [] =
      (Except.ok false, []) ∧
    (pyIn "elife." "10.7554/elife.64453" = true →
      pyIn "elife" (pyLower "10.7554/elife.64453") = true) ∧
    Event.stratCall "elife" ∈
      (runM (save_pdf envC10 paperC10 true false (ApiKeysArg.dict [])) []).2 :=
  fallback_elife_case_sensitivity "10.7554/elife.64453" {} [] (by decide)

/-- Claim C5: `save_pdf` raises `KeyError` when `paper_metadata` lacks the
`doi` key, and `ValueError` when the parent directory of `filepath` does
not exist, in both cases before performing any network call (the trace is
returned unchanged). -/
theorem save_pdf_validates_before_network (env : Env) (paper : PaperMeta)
    (saveMetadata : Bool) (ka : ApiKeysArg) (t : Trace) :
    (∀ parentExists : Bool, lookupKey paper "doi" = none →
      runM (save_pdf env paper parentExists saveMetadata ka) t =
        (Except.error (PyErr.keyError "doi"), t)) ∧
    (∀ dv, lookupKey paper "doi" = some dv →
      runM (save_pdf env paper false saveMetadata ka) t =
        (Except.error (PyErr.valueError "The folder seems to not exist."), t)) := by
  constructor
  · intro parentExists h
    unfold save_pdf
    rw [h]
    rfl
  · intro dv h
    unfold save_pdf
    rw [h]
    rfl

/-- Witness for claim C5 at concrete inputs. -/
theorem save_pdf_validates_before_network_witness :
    runM (save_pdf {} ([] : PaperMeta) true false (ApiKeysArg.dict [])) [] =
      (Except.error (PyErr.keyError "doi"), []) ∧
    runM (save_pdf {} [("doi", some "10.1234/test")] false false
        (ApiKeysArg.dict [])) [] =
      (Except.error (PyErr.valueError "The folder seems to not exist."), []) :=
  ⟨(save_pdf_validates_before_network {} [] false (ApiKeysArg.dict []) []).1
      true rfl,
   (save_pdf_validates_before_network {} [("doi", some "10.1234/test")] false
      (ApiKeysArg.dict []) []).2 (some "10.1234/test") rfl⟩

/-- Claim C4: a posting date on the last calendar day of its month maps to
the S3 folder of the next month (next year for December), for every year
(leap or not); any other day maps to the folder of its own month. -/
theorem month_folder_rollover (d : PyDate) (hm1 : 1 ≤ d.month)
    (hm2 : d.month ≤ 12) (hd1 : 1 ≤ d.day)
    (hd2 : d.day ≤ daysInMonth d.year d.month) :
    (d.day = daysInMonth d.year d.month →
      monthFolderOfDate d =
        (if d.month = 12 then monthName 1 ++ "_" ++ toString (d.year + 1)
         else monthName (d.month + 1) ++ "_" ++ toString d.year)) ∧
    (d.day ≠ daysInMonth d.year d.month →
      monthFolderOfDate d = monthName d.month ++ "_" ++ toString d.year) := by
  constructor
  · intro hlast
    have hnl : ¬ d.day < daysInMonth d.year d.month := by omega
    rcases Nat.lt_or_ge d.month 12 with h12 | h12
    · have : d.month ≠ 12 := by omega
      simp [monthFolderOfDate, nextDay, strftimeBY, hlast, hnl, h12, this]
    · have h12e : d.month = 12 := by omega
      simp [monthFolderOfDate, nextDay, strftimeBY, hlast, hnl, h12e]
  · intro hne
    simp [monthFolderOfDate, strftimeBY, hne]

/-- Witness for claim C4: February 29 of the leap year 2020 rolls over to
the March folder. -/
theorem month_folder_rollover_witness :
    monthFolderOfDate ⟨2020, 2, 29⟩ = "March_2020" := by
  have h := (month_folder_rollover ⟨2020, 2, 29⟩ (by decide) (by decide)
    (by decide) (by decide)).1 (by decide)
  rw [h]
  decide

theorem dumpLoop_invoked_fresh (pdfPath keyToSave : String)
    (fs : String → Bool) :
    ∀ (papers inv : List PaperMeta),
      dumpLoop pdfPath keyToSave fs papers = Except.ok inv →
      ∀ p ∈ inv, ∀ v, lookupKey p keyToSave = some (some v) →
        fs (pathJoin pdfPath (replaceSlash v ++ ".pdf")) = false ∧
        fs (pathJoin pdfPath (replaceSlash v ++ ".xml")) = false := by
  intro papers
  induction papers with
  | nil =>
    intro inv h p hp v hv
    simp only [dumpLoop] at h
    cases h
    simp at hp
  | cons paper rest ih =>
    intro inv h p hp v hv
    simp only [dumpLoop] at h
    split at h
    · split at h
      · cases h
      · exact ih inv h p hp v hv
    · split at h
      · cases h
      · exact ih inv h p hp v hv
    · split at h
      · cases h
      · cases h
      · rename_i v0 hkey
        split at h
        · exact ih inv h p hp v hv
        · rename_i hpdfF
          split at h
          · exact ih inv h p hp v hv
          · rename_i hxmlF
            split at h
            · cases h
            · rename_i invoked hrest
              cases h
              rcases List.mem_cons.mp hp with hpe | hpm
              · subst hpe
                rw [hkey] at hv
                cases hv
                constructor
                · simpa using hpdfF
                · simpa using hxmlF
              · exact ih _ hrest p hpm v hv

/-- Claim C6: on a second run over the same dump and output directory,
`save_pdf_from_dump` never invokes `save_pdf` (hence performs no network
call) for a paper whose target `.pdf` or `.xml` artifact already exists
under the filename derived from the `key_to_save` value. -/
theorem save_pdf_from_dump_skips_existing (dumpPath : String)
    (papers inv : List PaperMeta) (pdfPath keyToSave : String)
    (fs : String → Bool)
    (h : save_pdf_from_dump dumpPath papers pdfPath keyToSave fs =
      Except.ok inv)
    (p : PaperMeta) (v : String)
    (hv : lookupKey p keyToSave = some (some v))
    (hex : fs (pathJoin pdfPath (replaceSlash v ++ ".pdf")) = true ∨
      fs (pathJoin pdfPath (replaceSlash v ++ ".xml")) = true) :
    p ∉ inv := by
  intro hp
  unfold save_pdf_from_dump at h
  split at h
  · cases h
  · split at h
    · cases h
    · have hfresh :=
        dumpLoop_invoked_fresh pdfPath keyToSave fs papers inv h p hp v hv
      rcases hex with hx | hx
      · rw [hfresh.1] at hx
        cases hx
      · rw [hfresh.2] at hx
        cases hx

/-- Witness for claim C6: a dump with one paper whose `.pdf` artifact
already exists yields an empty invocation list. -/
theorem save_pdf_from_dump_skips_existing_witness :
    paperFresh ∉ ([] : List PaperMeta) :=
  save_pdf_from_dump_skips_existing "dump.jsonl" [paperFresh] [] "pdfs" "doi"
    fsHasPdf rfl paperFresh "10.1101/x" rfl (Or.inl rfl)
end Paperscraper
